import Mathlib

/-
  Verification development for the OkapiLib motion-profile following
  subsystem (trajectory generator, path store, async path controller).
  The repository sources under src/ contain the unit tests of the
  AsyncMotionProfileController, a PID controller and headers; the
  controller implementation itself is absent, so its operations are
  modelled from the specification (each such definition carries a
  `Modelled from the spec:` doc comment) while staying consistent with
  the concrete behaviour pinned by src/test/asyncMotionProfileControllerTests.cpp.

  Unit convention of the model: the floating-point quantities of the code
  are modelled as exact integers in fixed micro-units — lengths in
  micrometres, time in ticks of the fixed 10 ms sample period, velocities
  in micrometres per tick, accelerations in micrometres per tick squared.
  Every quantity the claims mention is exactly representable, so
  "equal within floating-point tolerance" becomes exact equality.
-/

namespace Okapi

/-- Milliseconds per trajectory sample tick: the fixed 10 ms time step of
the spec (§4.1). -/
def msPerTick : Nat := 10

/-- Modelled from the spec: a pose (position + heading) the path must pass
through (§3 Waypoint). Coordinates in micrometres, heading in millidegrees. -/
structure Waypoint where
  x : ℤ
  y : ℤ
  heading : ℤ
  deriving DecidableEq

/-- Modelled from the spec: one time-sampled point of a trajectory (§3
SegmentSample): position, linear velocity, heading, curvature and the time
step since the previous sample, in ticks. -/
structure SegmentSample where
  position : ℤ
  velocity : ℤ
  heading : ℤ
  curvature : ℤ
  dt : Nat
  deriving DecidableEq

/-- Modelled from the spec: independent left/right wheel trajectories derived
from one unicycle-model trajectory, plus the shared sample count (§3
TrajectoryPair). -/
structure TrajectoryPair where
  left : List SegmentSample
  right : List SegmentSample
  length : Nat
  deriving DecidableEq

/-- Modelled from the spec: the error taxonomy of §7. -/
inductive PathError where
  | InvalidPathError
  | InfeasiblePathError
  | NotFoundError
  | CorruptPathError
  deriving DecidableEq

/-- Modelled from the spec: kinematic limits handed to generation (§4.1):
velocity in micrometres per tick, acceleration in micrometres per tick
squared, track width in micrometres. -/
structure Constraints where
  maxVel : ℤ
  maxAccel : ℤ
  maxJerk : ℤ
  trackWidth : ℤ
  deriving DecidableEq

/-- Modelled from the spec: the Path Store is a mapping from PathID to
TrajectoryPair whose iteration order reflects insertion order (§3); an
association list embeds exactly that. -/
abbrev PathStore := List (String × TrajectoryPair)

/-- Modelled from the spec: `put` replaces any existing entry for the id in
place (keeping its ordering position), else appends (§4.3). -/
def storePut : PathStore → String → TrajectoryPair → PathStore
  | [], id, p => [(id, p)]
  | (k, q) :: rest, id, p =>
      if k = id then (k, p) :: rest else (k, q) :: storePut rest id p

/-- Modelled from the spec: lookup by PathID (§4.3 `get`). -/
def storeGet : PathStore → String → Option TrajectoryPair
  | [], _ => none
  | (k, q) :: rest, id => if k = id then some q else storeGet rest id

/-- Modelled from the spec: `remove` is a no-op when the id is absent (§4.3). -/
def storeRemove (st : PathStore) (id : String) : PathStore :=
  st.filter (fun kv => kv.1 ≠ id)

/-- Modelled from the spec: `keys()` in insertion order (§4.3). -/
def storeKeys (st : PathStore) : List String :=
  st.map Prod.fst

/-- Ceiling division on naturals, for sample-count computation. -/
def natCeilDiv (a b : Nat) : Nat :=
  (a + b - 1) / b

/-- Modelled from the spec: arc length of the piecewise path through the
waypoints, in micrometres; the spline fit being absent from src/, segments
are taken straight and measured with the taxicab bound (used only to size
the sample count). -/
def pathLen : List Waypoint → Nat
  | [] => 0
  | [_] => 0
  | a :: b :: rest => ((b.x - a.x).natAbs + (b.y - a.y).natAbs) + pathLen (b :: rest)

/-- Consecutive waypoint triples of a list, for the feasibility scan. -/
def wayTriples : List Waypoint → List (Waypoint × Waypoint × Waypoint)
  | a :: b :: c :: rest => (a, b, c) :: wayTriples (b :: c :: rest)
  | _ => []

/-- Modelled from the spec: feasibility of the requested geometry under the
kinematic limits (§4.1). A corner whose consecutive segment directions do not
keep a strictly positive inner product demands a curvature change exceeding
the track-width-limited wheel velocity difference, so the request is
infeasible (the legacy detection threshold is unspecified; this is the
structured criterion of §9's open question). -/
def feasibleB (ws : List Waypoint) : Bool :=
  (wayTriples ws).all (fun t =>
    decide (0 < (t.2.1.x - t.1.x) * (t.2.2.x - t.2.1.x)
              + (t.2.1.y - t.1.y) * (t.2.2.y - t.2.1.y)))

/-- Modelled from the spec: number of samples of the resampled trajectory at
the fixed time step, derived from path length and the velocity limit (§4.1);
at least 2 samples so a segment exists. -/
def numSamples (c : Constraints) (ws : List Waypoint) : Nat :=
  max 2 (natCeilDiv (pathLen ws) c.maxVel.toNat)

/-- Modelled from the spec: the two-pass velocity profile (§4.1): a forward
pass enforcing acceleration-limited ramp-up from the start, a backward pass
enforcing the limited ramp-down to the end, and the pointwise minimum of the
two, capped at the velocity limit. The per-tick velocity increment is
`maxAccel` (acceleration times the one-tick time step). -/
def profileVel (c : Constraints) (n i : Nat) : ℤ :=
  min c.maxVel (min (((i : ℤ) + 1) * c.maxAccel) (((n - i : Nat) : ℤ) * c.maxAccel))

/-- Modelled from the spec: the unicycle-model trajectory resampled at the
fixed time step (§4.1). Positions are the running integral of the profile;
heading is carried from the first waypoint and curvature is zero on the
straight segments this model admits (sharp corners are rejected as
infeasible). -/
def genTraj (c : Constraints) (ws : List Waypoint) : List SegmentSample :=
  let n := numSamples c ws
  let h0 := match ws with | [] => 0 | w :: _ => w.heading
  (List.range n).map (fun i =>
    { position := ((List.range i).map (profileVel c n)).sum
      velocity := profileVel c n i
      heading := h0
      curvature := 0
      dt := 1 })

/-- Modelled from the spec: differential-drive kinematic split (§4.2):
`vLeft = v*(1 - curvature*trackWidth/2)`, `vRight = v*(1 + curvature*trackWidth/2)`. -/
def split (c : Constraints) (traj : List SegmentSample) : TrajectoryPair :=
  { left := traj.map (fun s =>
      { s with velocity := s.velocity * (1 - s.curvature * (c.trackWidth / 2)) })
    right := traj.map (fun s =>
      { s with velocity := s.velocity * (1 + s.curvature * (c.trackWidth / 2)) })
    length := traj.length }

/-- Modelled from the spec: trajectory generation (§4.1). Fails with
`InvalidPathError` on fewer than 2 waypoints, with `InfeasiblePathError` when
the geometry cannot be satisfied under the limits, else produces the split
TrajectoryPair deterministically. -/
def generate (c : Constraints) (ws : List Waypoint) : Except PathError TrajectoryPair :=
  if ws.length < 2 then .error .InvalidPathError
  else if feasibleB ws then .ok (split c (genTraj c ws))
  else .error .InfeasiblePathError

/-- The velocity samples of the left wheel trajectory. -/
def leftVels (p : TrajectoryPair) : List ℤ :=
  p.left.map SegmentSample.velocity

/-- The velocity samples of the right wheel trajectory. -/
def rightVels (p : TrajectoryPair) : List ℤ :=
  p.right.map SegmentSample.velocity

/-- Modelled from the spec: the left wheel velocity replayed at sample `i`
(§4.2): mirroring swaps the two wheels and direction reversal negates the
velocities and reverses the sample order, both applied on demand at
execution time, never to the stored pair. -/
def replayLeftAt (p : TrajectoryPair) (backward mirrored : Bool) (i : Nat) : ℤ :=
  let v := if mirrored then rightVels p else leftVels p
  if backward then -(v.getD (v.length - 1 - i) 0) else v.getD i 0

/-- Modelled from the spec: the right wheel velocity replayed at sample `i`;
see `replayLeftAt`. -/
def replayRightAt (p : TrajectoryPair) (backward mirrored : Bool) (i : Nat) : ℤ :=
  let v := if mirrored then leftVels p else rightVels p
  if backward then -(v.getD (v.length - 1 - i) 0) else v.getD i 0

/-- Modelled from the spec: the controller's observable state (§3, §4.4):
the Path Store, the target triple (path id, direction, mirror), the
running/disabled flags, the execution thread's sample index, the last
velocity command seen by each motor of the drive model, and the full
history of issued commands (most recent first). -/
structure ControllerState where
  paths : PathStore
  limits : Constraints
  currentPath : String
  direction : Bool
  mirrored : Bool
  isRunning : Bool
  disabled : Bool
  sampleIdx : Nat
  lastLeft : ℤ
  lastRight : ℤ
  cmdLog : List (ℤ × ℤ)
  deriving DecidableEq

/-- The limits used by the test fixture, in the model's units: maxVel
1 m/s = 10000 µm/tick, maxAccel 2 m/s² = 200 µm/tick², track width
10.5 in = 0.2667 m = 266700 µm. -/
def defaultLimits : Constraints :=
  { maxVel := 10000, maxAccel := 200, maxJerk := 100000, trackWidth := 266700 }

/-- A freshly constructed controller: empty store, no target, enabled, idle. -/
def initialState : ControllerState :=
  { paths := []
    limits := defaultLimits
    currentPath := ""
    direction := false
    mirrored := false
    isRunning := false
    disabled := false
    sampleIdx := 0
    lastLeft := 0
    lastRight := 0
    cmdLog := [] }

/-- Issue one velocity command pair to the drive model: both motors record
it as their last command and it is appended to the command history. -/
def issueCmd (l r : ℤ) (s : ControllerState) : ControllerState :=
  { s with lastLeft := l, lastRight := r, cmdLog := (l, r) :: s.cmdLog }

/-- Modelled from the spec: `setTarget(id, backward, mirrored)` records the
target triple and marks the controller running from sample 0 (§4.4); the
src/ tests pin that it neither throws for an unknown id
(WrongPathNameDoesNotMoveAnything) nor leaves the target unchanged
(ControllerSetChangesTarget). -/
def setTarget (s : ControllerState) (id : String) (backward mirrored : Bool) : ControllerState :=
  { s with currentPath := id, direction := backward, mirrored := mirrored,
           isRunning := true, sampleIdx := 0 }

/-- Modelled from the spec: `controllerSet` delegates to `setTarget` with
default flags. -/
def controllerSet (s : ControllerState) (id : String) : ControllerState :=
  setTarget s id false false

/-- The current target id. -/
def getTarget (s : ControllerState) : String :=
  s.currentPath

/-- Whether execution is disabled. -/
def isDisabled (s : ControllerState) : Bool :=
  s.disabled

/-- Modelled from the spec: `isSettled()` is true whenever disabled, or when
no path is being executed (§4.4, SettledWhenDisabled). -/
def isSettled (s : ControllerState) : Bool :=
  s.disabled || !s.isRunning

/-- Modelled from the spec: `flipDisable` sets the disabled flag; the
execution thread performs the stop on its next tick (§4.4, the
DisabledStopsMotors test waits one tick for the loop to clean up). -/
def flipDisable (s : ControllerState) (b : Bool) : ControllerState :=
  { s with disabled := b }

/-- Modelled from the spec: `reset()` clears the current target, stops the
motors, returns to Idle and leaves the controller enabled (§4.4). -/
def reset (s : ControllerState) : ControllerState :=
  issueCmd 0 0
    { s with currentPath := "", isRunning := false, disabled := false, sampleIdx := 0 }

/-- Modelled from the spec: one tick of the execution thread (§4.4). When
disabled mid-execution it issues the stop and settles; when tracking it
emits the current sample's replayed left/right velocities and advances, or
stops and settles past the final sample; an unknown target id executes
nothing and settles without commanding the drive model; otherwise the
thread idles. -/
def stepState (s : ControllerState) : ControllerState :=
  if s.disabled then
    if s.isRunning then issueCmd 0 0 { s with isRunning := false } else s
  else if s.isRunning then
    match storeGet s.paths s.currentPath with
    | none => { s with isRunning := false }
    | some p =>
        if s.sampleIdx < p.length then
          issueCmd (replayLeftAt p s.direction s.mirrored s.sampleIdx)
                   (replayRightAt p s.direction s.mirrored s.sampleIdx)
                   { s with sampleIdx := s.sampleIdx + 1 }
        else issueCmd 0 0 { s with isRunning := false }
  else s

/-- Iterate the execution thread for a number of ticks. -/
def iterateStep : Nat → ControllerState → ControllerState
  | 0, s => s
  | n + 1, s => iterateStep n (stepState s)

/-- Modelled from the spec: `generatePath` runs generation synchronously
(§4.1, §7): an `InvalidPathError` (empty or too-short waypoint list) is
treated as a no-op by the caller and does not escape, an
`InfeasiblePathError` is surfaced to the caller, and on success the store
entry for the id is atomically replaced. The store is untouched on every
error. -/
def generatePath (s : ControllerState) (ws : List Waypoint) (id : String) :
    ControllerState × Option PathError :=
  match generate s.limits ws with
  | .error .InvalidPathError => (s, none)
  | .error e => (s, some e)
  | .ok p => ({ s with paths := storePut s.paths id p }, none)

/-- `removePath` drops the entry, a no-op when absent. -/
def removePath (s : ControllerState) (id : String) : ControllerState :=
  { s with paths := storeRemove s.paths id }

/-- The ids of the stored paths, in insertion order. -/
def getPaths (s : ControllerState) : List String :=
  storeKeys s.paths

/-- Characters illegal in the target filesystem, stripped from the filename
component (§6): the set `<>:"\|*` together with `/`. -/
def illegalChar (c : Char) : Bool :=
  c == '<' || c == '>' || c == ':' || c == '"' || c == '\\' || c == '|' || c == '*' || c == '/'

/-- Split a character list on the path separator. -/
def splitSlashAux : List Char → List Char → List (List Char)
  | [], acc => [acc.reverse]
  | c :: rest, acc =>
      if c = '/' then acc.reverse :: splitSlashAux rest []
      else splitSlashAux rest (c :: acc)

/-- The characters of the storage-root directory name. -/
def usdChars : List Char := ['u', 's', 'd']

/-- Modelled from the spec: file-path construction (§6): normalize the
directory into an absolute path under the fixed storage root `/usd`
(an empty directory defaults to the root itself), collapse redundant
separators, strip the illegal characters from the filename component, and
join. -/
def makeFilePath (directory filename : String) : String :=
  let comps := (splitSlashAux directory.toList []).filter (fun c => ¬ c.isEmpty)
  let comps :=
    match comps with
    | [] => [usdChars]
    | c :: rest => if c = usdChars then c :: rest else usdChars :: c :: rest
  let fname := filename.toList.filter (fun c => ¬ illegalChar c)
  String.mk ('/' :: (List.intercalate ['/'] comps ++ '/' :: fname))

/-- Modelled from the spec: one fixed-size binary record of the persisted
path format (§6): velocity and a distance field as 4-byte floats (exact
micro-unit integers here) and the step duration in milliseconds as an
unsigned 16-bit integer. -/
structure PathRecord where
  velocity : ℤ
  distance : ℤ
  dtMs : Nat
  deriving DecidableEq

/-- Serialize one sample into its binary record; the tick count becomes
milliseconds. -/
def toRecord (s : SegmentSample) : PathRecord :=
  { velocity := s.velocity, distance := s.position, dtMs := s.dt * msPerTick }

/-- Deserialize one record back into a sample; fields not persisted
(heading, curvature) read back as zero. -/
def ofRecord (r : PathRecord) : SegmentSample :=
  { position := r.distance, velocity := r.velocity, heading := 0, curvature := 0,
    dt := r.dtMs / msPerTick }

/-- Modelled from the spec: `save` serializes a TrajectoryPair into two
parallel record streams, one per wheel, one fixed-size record per sample
(§4.3, §6). -/
def savePair (p : TrajectoryPair) : List PathRecord × List PathRecord :=
  (p.left.map toRecord, p.right.map toRecord)

/-- Modelled from the spec: `load` deserializes the two parallel streams in
lockstep; mismatched stream lengths are malformed input and fail with
`CorruptPathError` (§4.3, §6). -/
def loadPair (streams : List PathRecord × List PathRecord) :
    Except PathError TrajectoryPair :=
  if streams.1.length = streams.2.length then
    .ok { left := streams.1.map ofRecord, right := streams.2.map ofRecord,
          length := streams.1.length }
  else .error .CorruptPathError

/-- A short straight-line waypoint list used as the concrete test vehicle:
0.02 m = 20000 µm along the x axis, both headings zero. -/
def tinyWs : List Waypoint :=
  [{ x := 0, y := 0, heading := 0 }, { x := 20000, y := 0, heading := 0 }]

/-- The TrajectoryPair generated for `tinyWs` under the test limits. -/
def tinyPair : TrajectoryPair :=
  (generate defaultLimits tinyWs).toOption.getD { left := [], right := [], length := 0 }

/-- A second straight-line waypoint list, 0.03 m long, giving a different
trajectory than `tinyWs`. -/
def tinyWs2 : List Waypoint :=
  [{ x := 0, y := 0, heading := 0 }, { x := 30000, y := 0, heading := 0 }]

/-- The TrajectoryPair generated for `tinyWs2` under the test limits. -/
def tinyPair2 : TrajectoryPair :=
  (generate defaultLimits tinyWs2).toOption.getD { left := [], right := [], length := 0 }

/-- A geometrically infeasible waypoint list: the two segments meet at a
right angle, so their direction vectors have inner product zero. -/
def infeasWs : List Waypoint :=
  [{ x := 0, y := 0, heading := 0 }, { x := 1000, y := 0, heading := 0 },
   { x := 1000, y := 1000, heading := 0 }]

/-- A controller mid-overwrite scenario: the store held path A, it was
overwritten with `tinyPair`, and A is the running target at sample 0. -/
def overwriteState : ControllerState :=
  { initialState with
      paths := storePut [("A", tinyPair2)] "A" tinyPair
      currentPath := "A"
      isRunning := true }

instance {ε α : Type} [DecidableEq ε] [DecidableEq α] : DecidableEq (Except ε α) := fun a b =>
  match a, b with
  | .ok x, .ok y =>
      if h : x = y then isTrue (congrArg Except.ok h)
      else isFalse (fun hh => h (Except.ok.inj hh))
  | .error x, .error y =>
      if h : x = y then isTrue (congrArg Except.error h)
      else isFalse (fun hh => h (Except.error.inj hh))
  | .ok _, .error _ => isFalse (fun hh => Except.noConfusion hh)
  | .error _, .ok _ => isFalse (fun hh => Except.noConfusion hh)

/-- `put` makes the id map to the new pair. -/
theorem storeGet_put_self (st : PathStore) (id : String) (p : TrajectoryPair) :
    storeGet (storePut st id p) id = some p := by
  induction st with
  | nil => simp [storePut, storeGet]
  | cons kv rest ih =>
      by_cases h : kv.1 = id
      · simp [storePut, storeGet, h]
      · simp [storePut, storeGet, h, ih]

/-- `put` of an id already present keeps `keys()` unchanged, element for
element, so the entry keeps its ordering position. -/
theorem storeKeys_put_of_mem (st : PathStore) (id : String) (p : TrajectoryPair)
    (h : id ∈ storeKeys st) : storeKeys (storePut st id p) = storeKeys st := by
  induction st with
  | nil => simp [storeKeys] at h
  | cons kv rest ih =>
      by_cases hk : kv.1 = id
      · simp [storePut, storeKeys, hk]
      · have hmem : id ∈ storeKeys rest := by
          simp [storeKeys] at h
          rcases h with h | h
          · exact absurd h.symm hk
          · simpa [storeKeys] using h
        have hrest := ih hmem
        simp [storeKeys] at hrest
        simp [storePut, storeKeys, hk, hrest]

/-- A tick does nothing when no path is being executed. -/
theorem stepState_of_not_running (s : ControllerState) (h : s.isRunning = false) :
    stepState s = s := by
  simp [stepState, h]

/-- Iterating the thread from a fixed point of one tick stays put. -/
theorem iterateStep_of_fixed (n : Nat) (s : ControllerState) (h : stepState s = s) :
    iterateStep n s = s := by
  induction n with
  | zero => rfl
  | succ n ih => simpa [iterateStep, h] using ih

/-- A tick on an enabled, running controller whose target id is absent from
the Path Store only clears the running flag: no command is issued. -/
theorem stepState_unknown (s : ControllerState) (h1 : s.disabled = false)
    (h2 : s.isRunning = true) (h3 : storeGet s.paths s.currentPath = none) :
    stepState s = { s with isRunning := false } := by
  simp [stepState, h1, h2, h3]

/-- Setting an unknown target records it, never commands the drive model,
and from the first tick on the controller is settled again. -/
theorem setTarget_unknown_behavior (s : ControllerState) (id : String) (bwd mir : Bool)
    (h1 : storeGet s.paths id = none) (h2 : s.disabled = false) :
    getTarget (setTarget s id bwd mir) = id
    ∧ (∀ n, (iterateStep n (setTarget s id bwd mir)).cmdLog = s.cmdLog)
    ∧ (∀ n, 1 ≤ n → isSettled (iterateStep n (setTarget s id bwd mir)) = true) := by
  have hstep : stepState (setTarget s id bwd mir)
      = { setTarget s id bwd mir with isRunning := false } := by
    refine stepState_unknown _ h2 rfl ?_
    simpa [setTarget] using h1
  have hfix : stepState { setTarget s id bwd mir with isRunning := false }
      = { setTarget s id bwd mir with isRunning := false } :=
    stepState_of_not_running _ rfl
  refine ⟨rfl, ?_, ?_⟩
  · intro n
    cases n with
    | zero => rfl
    | succ n =>
        show (iterateStep n (stepState (setTarget s id bwd mir))).cmdLog = s.cmdLog
        rw [hstep, iterateStep_of_fixed n _ hfix]
        rfl
  · intro n hn
    cases n with
    | zero => omega
    | succ n =>
        show isSettled (iterateStep n (stepState (setTarget s id bwd mir))) = true
        rw [hstep, iterateStep_of_fixed n _ hfix]
        simp [isSettled]

/-- Claim C1 (counterexample): on a fresh controller, whose Path Store does
not contain "A", `setTarget "A"` raises no error and does change the state
(the target is recorded and the controller transiently leaves the settled
condition), contradicting the claim that the call fails with NotFoundError
and causes no state change. -/
theorem C1_counterexample_state_change :
    storeGet initialState.paths "A" = none
    ∧ setTarget initialState "A" false false ≠ initialState
    ∧ getTarget (setTarget initialState "A" false false) = "A"
    ∧ isSettled (setTarget initialState "A" false false) = false := by
  decide

/-- Claim C1 (amended): for every PathID not present in the Path Store,
`setTarget` succeeds without error; it records the ID as the current target,
but no velocity command is ever issued to the drive model and from the first
tick of the execution thread onward the controller is settled again. -/
theorem C1_setTarget_unknown_no_motion (s : ControllerState) (id : String) (bwd mir : Bool)
    (h1 : storeGet s.paths id = none) (h2 : s.disabled = false) :
    getTarget (setTarget s id bwd mir) = id
    ∧ (∀ n, (iterateStep n (setTarget s id bwd mir)).cmdLog = s.cmdLog)
    ∧ (∀ n, 1 ≤ n → isSettled (iterateStep n (setTarget s id bwd mir)) = true) :=
  setTarget_unknown_behavior s id bwd mir h1 h2

/-- Claim C1 (witness): the amended claim instantiated on a fresh controller
and the unknown id "A", two ticks in. -/
theorem C1_witness :
    storeGet initialState.paths "A" = none
    ∧ initialState.disabled = false
    ∧ getTarget (setTarget initialState "A" false false) = "A"
    ∧ (iterateStep 2 (setTarget initialState "A" false false)).cmdLog = initialState.cmdLog
    ∧ isSettled (iterateStep 2 (setTarget initialState "A" false false)) = true := by
  have h := C1_setTarget_unknown_no_motion initialState "A" false false (by decide) (by decide)
  exact ⟨by decide, by decide, h.1, h.2.1 2, h.2.2 2 (by decide)⟩

/-- Claim C2: generation on an empty waypoint list fails with
InvalidPathError, and the controller treats it as a no-op: the Path Store
gains no entry and no error escapes from `generatePath`. -/
theorem C2_generate_empty_noop (c : Constraints) (s : ControllerState) (id : String) :
    generate c [] = Except.error PathError.InvalidPathError
    ∧ generatePath s [] id = (s, none) :=
  ⟨rfl, rfl⟩

/-- Claim C3: for every waypoint list that defines segments but whose
geometry cannot be satisfied under the kinematic limits, `generatePath`
surfaces InfeasiblePathError synchronously from the generating call and the
Path Store is left untouched. -/
theorem C3_infeasible_surfaced (s : ControllerState) (ws : List Waypoint) (id : String)
    (h1 : 2 ≤ ws.length) (h2 : feasibleB ws = false) :
    generatePath s ws id = (s, some PathError.InfeasiblePathError)
    ∧ (generatePath s ws id).1.paths = s.paths := by
  have hgen : generate s.limits ws = .error .InfeasiblePathError := by
    unfold generate
    rw [if_neg (by omega), h2]
    simp
  constructor
  · unfold generatePath
    rw [hgen]
  · unfold generatePath
    rw [hgen]

/-- Claim C3 (witness): the right-angle waypoint list is infeasible and
generation surfaces the error on a fresh controller, store untouched. -/
theorem C3_witness :
    2 ≤ infeasWs.length
    ∧ feasibleB infeasWs = false
    ∧ generatePath initialState infeasWs "A" = (initialState, some PathError.InfeasiblePathError) := by
  have h := C3_infeasible_surfaced initialState infeasWs "A" (by decide) (by decide)
  exact ⟨by decide, by decide, h.1⟩

/-- Claim C4: for every well-formed stored pair, `save` followed by `load`
succeeds and reproduces a TrajectoryPair of the same length whose left and
right velocity samples equal the original's (exactly, in the exact-integer
model of the float fields). -/
theorem C4_save_load_roundtrip (p : TrajectoryPair)
    (h1 : p.left.length = p.length) (h2 : p.right.length = p.length) :
    ∃ q, loadPair (savePair p) = Except.ok q ∧ q.length = p.length
      ∧ leftVels q = leftVels p ∧ rightVels q = rightVels p := by
  refine ⟨{ left := (p.left.map toRecord).map ofRecord,
            right := (p.right.map toRecord).map ofRecord,
            length := (p.left.map toRecord).length }, ?_, ?_, ?_, ?_⟩
  · unfold loadPair savePair
    rw [if_pos (by simp [h1, h2])]
  · simp [h1]
  · simp [leftVels, List.map_map]
    intro a _
    rfl
  · simp [rightVels, List.map_map]
    intro a _
    rfl

/-- Claim C4 (witness): the round trip instantiated on the concrete
generated pair `tinyPair`. -/
theorem C4_witness :
    tinyPair.left.length = tinyPair.length
    ∧ tinyPair.right.length = tinyPair.length
    ∧ ∃ q, loadPair (savePair tinyPair) = Except.ok q ∧ q.length = tinyPair.length
        ∧ leftVels q = leftVels tinyPair ∧ rightVels q = rightVels tinyPair :=
  ⟨by decide, by decide, C4_save_load_roundtrip tinyPair (by decide) (by decide)⟩

/-- Claim C5: disabling an enabled, tracking controller brings both wheel
commands to exactly zero within one tick of the execution thread and makes
`isSettled` true; and in general `isSettled` is true whenever the
controller is disabled. -/
theorem C5_disable_stops_and_settles (s t : ControllerState)
    (h1 : s.disabled = false) (h2 : s.isRunning = true) (h3 : isDisabled t = true) :
    (stepState (flipDisable s true)).lastLeft = 0
    ∧ (stepState (flipDisable s true)).lastRight = 0
    ∧ isSettled (stepState (flipDisable s true)) = true
    ∧ isSettled t = true := by
  have hstep : stepState (flipDisable s true)
      = issueCmd 0 0 { flipDisable s true with isRunning := false } := by
    simp [stepState, flipDisable, h2]
  refine ⟨?_, ?_, ?_, ?_⟩
  · rw [hstep]; rfl
  · rw [hstep]; rfl
  · rw [hstep]; simp [issueCmd, isSettled, flipDisable]
  · simp [isSettled, isDisabled] at h3 ⊢
    simp [h3]

/-- Claim C5 (witness): a tracking controller disabled mid-path stops and
settles within one tick, and a disabled controller reports settled. -/
theorem C5_witness :
    ({ initialState with isRunning := true } : ControllerState).disabled = false
    ∧ ({ initialState with isRunning := true } : ControllerState).isRunning = true
    ∧ isDisabled { initialState with disabled := true } = true
    ∧ (stepState (flipDisable { initialState with isRunning := true } true)).lastLeft = 0
    ∧ (stepState (flipDisable { initialState with isRunning := true } true)).lastRight = 0
    ∧ isSettled (stepState (flipDisable { initialState with isRunning := true } true)) = true
    ∧ isSettled { initialState with disabled := true } = true := by
  have h := C5_disable_stops_and_settles { initialState with isRunning := true }
    { initialState with disabled := true } (by decide) (by decide) (by decide)
  exact ⟨by decide, by decide, by decide, h.1, h.2.1, h.2.2.1, h.2.2.2⟩

/-- Claim C6: direction reversal is the pure execution-time transformation
that negates the stored velocities and reverses the sample order: the
stored pair is untouched by a backward `setTarget`, and every sample at
which the forward replay is strictly positive is replayed strictly negative
(at the order-reversed position) by the backward replay, for both wheels. -/
theorem C6_backward_negates (s : ControllerState) (id : String) (m : Bool)
    (p : TrajectoryPair) (i : Nat)
    (hiL : i < (leftVels p).length) (hiR : i < (rightVels p).length) :
    (setTarget s id true m).paths = s.paths
    ∧ (0 < (leftVels p).getD i 0 →
        replayLeftAt p true false ((leftVels p).length - 1 - i) < 0)
    ∧ (0 < (rightVels p).getD i 0 →
        replayRightAt p true false ((rightVels p).length - 1 - i) < 0) := by
  refine ⟨rfl, ?_, ?_⟩
  · intro h
    show -((leftVels p).getD
        ((leftVels p).length - 1 - ((leftVels p).length - 1 - i)) 0) < 0
    have hidx : (leftVels p).length - 1 - ((leftVels p).length - 1 - i) = i := by omega
    rw [hidx]
    exact neg_lt_zero.mpr h
  · intro h
    show -((rightVels p).getD
        ((rightVels p).length - 1 - ((rightVels p).length - 1 - i)) 0) < 0
    have hidx : (rightVels p).length - 1 - ((rightVels p).length - 1 - i) = i := by omega
    rw [hidx]
    exact neg_lt_zero.mpr h

/-- Claim C6 (witness): instantiated on the concrete straight-line pair
`tinyPair` at sample 0, whose forward velocities are strictly positive. -/
theorem C6_witness :
    0 < (leftVels tinyPair).length
    ∧ 0 < (rightVels tinyPair).length
    ∧ 0 < (leftVels tinyPair).getD 0 0
    ∧ 0 < (rightVels tinyPair).getD 0 0
    ∧ (setTarget initialState "A" true false).paths = initialState.paths
    ∧ replayLeftAt tinyPair true false ((leftVels tinyPair).length - 1 - 0) < 0
    ∧ replayRightAt tinyPair true false ((rightVels tinyPair).length - 1 - 0) < 0 := by
  have h := C6_backward_negates initialState "A" false tinyPair 0 (by decide) (by decide)
  exact ⟨by decide, by decide, by decide, by decide, h.1, h.2.1 (by decide), h.2.2 (by decide)⟩

/-- Claim C7: putting a pair under an ID already present replaces the old
entry atomically: `keys()` is unchanged (the entry keeps its ordering
position, and a store holding only that ID keeps exactly one key), lookup
returns the replacement, and the next execution tick commands the
replacement trajectory's replayed sample. -/
theorem C7_overwrite_replaces (st : PathStore) (id : String) (p q : TrajectoryPair)
    (s2 : ControllerState)
    (hmem : id ∈ storeKeys st)
    (hp : s2.paths = storePut st id p) (hcur : s2.currentPath = id)
    (hrun : s2.isRunning = true) (hdis : s2.disabled = false)
    (hidx : s2.sampleIdx = 0) (hlen : 0 < p.length) :
    storeKeys (storePut st id p) = storeKeys st
    ∧ storeGet (storePut st id p) id = some p
    ∧ storeKeys (storePut (storePut [] id q) id p) = [id]
    ∧ (stepState s2).lastLeft = replayLeftAt p s2.direction s2.mirrored 0
    ∧ (stepState s2).lastRight = replayRightAt p s2.direction s2.mirrored 0 := by
  have hget : storeGet s2.paths s2.currentPath = some p := by
    rw [hp, hcur]
    exact storeGet_put_self st id p
  have hstep : stepState s2
      = issueCmd (replayLeftAt p s2.direction s2.mirrored s2.sampleIdx)
                 (replayRightAt p s2.direction s2.mirrored s2.sampleIdx)
                 { s2 with sampleIdx := s2.sampleIdx + 1 } := by
    simp [stepState, hdis, hrun, hget, hidx, hlen]
  refine ⟨storeKeys_put_of_mem st id p hmem, storeGet_put_self st id p, ?_, ?_, ?_⟩
  · simp [storePut, storeKeys]
  · rw [hstep, hidx]; rfl
  · rw [hstep, hidx]; rfl

/-- Claim C7 (witness): the concrete overwrite scenario: path "A" held
`tinyPair2`, was overwritten with `tinyPair`, and the first tick replays
the replacement. -/
theorem C7_witness :
    "A" ∈ storeKeys [("A", tinyPair2)]
    ∧ 0 < tinyPair.length
    ∧ storeKeys (storePut [("A", tinyPair2)] "A" tinyPair) = storeKeys [("A", tinyPair2)]
    ∧ storeGet (storePut [("A", tinyPair2)] "A" tinyPair) "A" = some tinyPair
    ∧ storeKeys (storePut (storePut [] "A" tinyPair2) "A" tinyPair) = ["A"]
    ∧ (stepState overwriteState).lastLeft
        = replayLeftAt tinyPair overwriteState.direction overwriteState.mirrored 0
    ∧ (stepState overwriteState).lastRight
        = replayRightAt tinyPair overwriteState.direction overwriteState.mirrored 0 := by
  have h := C7_overwrite_replaces [("A", tinyPair2)] "A" tinyPair tinyPair2 overwriteState
    (by decide) rfl rfl rfl rfl rfl (by decide)
  exact ⟨by decide, by decide, h.1, h.2.1, h.2.2.1, h.2.2.2.1, h.2.2.2.2⟩

/-- Claim C8: after `reset()` the current target is cleared, the last
command issued to both motors is zero velocity, the controller is settled
(Idle) and is not left disabled — for every prior state, in particular
mid-execution ones. -/
theorem C8_reset_clears_stops_settles (s : ControllerState) :
    getTarget (reset s) = ""
    ∧ (reset s).lastLeft = 0
    ∧ (reset s).lastRight = 0
    ∧ isSettled (reset s) = true
    ∧ isDisabled (reset s) = false := by
  refine ⟨rfl, rfl, rfl, ?_, rfl⟩
  simp [reset, issueCmd, isSettled]

/-- Claim C9: file-path construction: an empty directory defaults to the
storage root, a subdirectory joins under the root, redundant separators are
collapsed, and the characters illegal in the target filesystem are stripped
from the filename component before joining. -/
theorem C9_makeFilePath_cases :
    makeFilePath "" "test" = "/usd/test"
    ∧ makeFilePath "/usd/subdir/" "test" = "/usd/subdir/test"
    ∧ makeFilePath "/usd/" "test" = "/usd/test"
    ∧ makeFilePath "usd" "test" = "/usd/test"
    ∧ makeFilePath "subdir" "test" = "/usd/subdir/test"
    ∧ makeFilePath "subdir/" "test" = "/usd/subdir/test"
    ∧ makeFilePath "" "t>e<s\"t\\F:i*l|e/" = "/usd/testFile" := by
  decide

/-- Claim C10: setting the target (via `controllerSet`) to a PathID absent
from the Path Store still records that ID as the current target — a
subsequent `getTarget` returns the unknown ID — while no trajectory
executes and no motion is ever commanded. -/
theorem C10_controllerSet_records_target (s : ControllerState) (id : String)
    (h1 : storeGet s.paths id = none) (h2 : s.disabled = false) :
    getTarget (controllerSet s id) = id
    ∧ ∀ n, (iterateStep n (controllerSet s id)).cmdLog = s.cmdLog := by
  have h := setTarget_unknown_behavior s id false false h1 h2
  exact ⟨h.1, h.2.1⟩

/-- Claim C10 (witness): instantiated on a fresh controller and the unknown
id "A", three ticks in. -/
theorem C10_witness :
    storeGet initialState.paths "A" = none
    ∧ initialState.disabled = false
    ∧ getTarget (controllerSet initialState "A") = "A"
    ∧ (iterateStep 3 (controllerSet initialState "A")).cmdLog = initialState.cmdLog := by
  have h := C10_controllerSet_records_target initialState "A" (by decide) (by decide)
  exact ⟨by decide, by decide, h.1, h.2 3⟩

end Okapi
